import Mathlib

/-!
Verification of the render proxy server (`render_proxy.py`).

The program is a small Flask application with four routes: a catch-all
forwarding handler (`proxy`), a health probe (`health_check`), a control
endpoint mutating the upstream URL (`tunnel_update`), and a read-only
`status` endpoint.  Below we give a shallow embedding of its state, its
pure URL/string manipulation, its handlers (with the network modelled as
an explicit outcome parameter), and the routing surface the framework
provides, and we prove the specification's claims about them.
-/

set_option autoImplicit false

namespace RenderProxy

/-- Mutable process state of the proxy.  `cloudflared_tunnel_url` is the
immutable environment default read at start-up (module constant
`CLOUDFLARED_TUNNEL_URL`); `current_tunnel_url` and `tunnel_update_time`
are the module globals mutated by `tunnel_update`.  Timestamps are kept
abstract as strings. -/
structure ProxyState where
  cloudflared_tunnel_url : String
  current_tunnel_url : String
  tunnel_update_time : Option String
deriving DecidableEq, Repr

/-- Fallback value of `CLOUDFLARED_TUNNEL_URL` when the environment
variable is absent (`os.environ.get(..., 'http://localhost:5000')`). -/
def defaultTunnelUrl : String := "http://localhost:5000"

/-- Process start-up: `current_tunnel_url` is initialised to the
environment default, `tunnel_update_time` to `None`.  The argument is the
value of the `CLOUDFLARED_TUNNEL_URL` environment variable, if set. -/
def initState (env : Option String) : ProxyState :=
  ProxyState.mk (env.getD defaultTunnelUrl) (env.getD defaultTunnelUrl) none

/-- Python's `s.rstrip('/')`: remove all trailing `'/'` characters. -/
def rstripSlash (s : String) : String :=
  String.mk (List.reverse (List.dropWhile (fun c => c = '/') s.data.reverse))

/-- Target-URL construction of the forwarding handler (lines 33-38):
`f"{current.rstrip('/')}/{path}"`, then `+= f"?{query_string}"` when the
query string is non-empty. -/
def buildTargetUrl (current path query_string : String) : String :=
  let target_url := rstripSlash current ++ "/" ++ path
  if query_string ≠ "" then target_url ++ "?" ++ query_string else target_url

/-- The URL the forwarding handler targets, read from the current state. -/
def proxyTargetUrl (st : ProxyState) (path query_string : String) : String :=
  buildTargetUrl st.current_tunnel_url path query_string

/-- Timeout (seconds) passed to every forwarded upstream call. -/
def forwardTimeoutSeconds : Nat := 30

/-- Timeout (seconds) passed to the health probe (line 123). -/
def healthTimeoutSeconds : Nat := 5

/-- Case-insensitive equality of two header names: their characters
agree after lowering. -/
def headerNameMatches (a b : String) : Bool :=
  a.data.map Char.toLower == b.data.map Char.toLower

/-- Case-insensitive deletion of a header name, as Werkzeug's
`del headers[name]` performs: every entry whose name equals `name` up to
case is dropped. -/
def removeHeader (hs : List (String × String)) (name : String) : List (String × String) :=
  hs.filter (fun p => !headerNameMatches p.1 name)

/-- Result of the outbound `requests` call made by the forwarding
handler: either an upstream HTTP response (status, body bytes, headers),
or one of the exception classes the handler distinguishes. -/
inductive UpstreamOutcome where
  | response (status : Nat) (body : List Nat) (headers : List (String × String))
  | connectionError
  | timeout
  | otherError (message : String)
deriving DecidableEq, Repr

/-- Response of the forwarding handler: a relay of the upstream response,
or a plain-text error response built by one of the `except` clauses. -/
inductive ProxyResult where
  | relay (status : Nat) (body : List Nat) (headers : List (String × String))
  | errorResponse (status : Nat) (message : String)
deriving DecidableEq, Repr

/-- HTTP status of a forwarding-handler response. -/
def ProxyResult.statusOf : ProxyResult → Nat
  | .relay s _ _ => s
  | .errorResponse s _ => s

/-- Body bytes of a relayed response, `none` for an error response. -/
def ProxyResult.relayBody? : ProxyResult → Option (List Nat)
  | .relay _ b _ => some b
  | .errorResponse _ _ => none

/-- Headers of a forwarding-handler response (error responses carry no
headers beyond the content type, modelled separately). -/
def ProxyResult.headersOf : ProxyResult → List (String × String)
  | .relay _ _ h => h
  | .errorResponse _ _ => []

/-- Body of the 503 connection-error response (line 99); it names the
current upstream URL. -/
def connectionErrorMessage (st : ProxyState) : String :=
  "Cloudflared tunnel is not accessible at " ++ st.current_tunnel_url ++
    ". Please ensure your local app is running and cloudflared tunnel is active."

/-- Body of the 504 timeout response (line 106); it names the current
upstream URL. -/
def timeoutMessage (st : ProxyState) : String :=
  "Request timeout. The cloudflared tunnel at " ++ st.current_tunnel_url ++
    " is taking too long to respond."

/-- The forwarding handler's treatment of the outbound call's outcome
(lines 81-116): a received upstream response is relayed with its status
code and body, with `Transfer-Encoding` and `Content-Encoding` deleted
from the copied headers; `requests.exceptions.ConnectionError` yields
503, `requests.exceptions.Timeout` yields 504, and any other exception
yields 500 with `"Proxy error: "` prefixed to its message.  No retry is
performed: the outcome is consumed exactly once. -/
def proxy (st : ProxyState) (outcome : UpstreamOutcome) : ProxyResult :=
  match outcome with
  | .response s body hs =>
      .relay s body (removeHeader (removeHeader hs "Transfer-Encoding") "Content-Encoding")
  | .connectionError => .errorResponse 503 (connectionErrorMessage st)
  | .timeout => .errorResponse 504 (timeoutMessage st)
  | .otherError e => .errorResponse 500 ("Proxy error: " ++ e)

/-- Outcome of the health probe's `requests.get`: a response with some
status code, or any raised exception (timeout and connection failure
included), which the bare `except:` does not distinguish. -/
inductive ProbeOutcome where
  | ok (status : Nat)
  | exn
deriving DecidableEq, Repr

/-- Reply of the health endpoint: HTTP status plus the `status` and
`tunnel` fields of the JSON body. -/
structure HealthReply where
  code : Nat
  status : String
  tunnel : String
deriving DecidableEq, Repr

/-- The URL the health endpoint probes (line 123): the module constant
`CLOUDFLARED_TUNNEL_URL`, not the mutable `current_tunnel_url`. -/
def healthProbeUrl (st : ProxyState) : String :=
  st.cloudflared_tunnel_url

/-- The health endpoint (lines 118-129): issue a GET to
`CLOUDFLARED_TUNNEL_URL`; on status 200 report healthy, on any other
status report `responding_with_error`, and on any exception report
`not_accessible`.  The network is modelled by the `probe` argument,
mapping the probed URL to its outcome. -/
def health_check (st : ProxyState) (probe : String → ProbeOutcome) : HealthReply :=
  match probe st.cloudflared_tunnel_url with
  | .ok code =>
      if code = 200 then HealthReply.mk 200 "healthy" "connected"
      else HealthReply.mk 503 "unhealthy" "responding_with_error"
  | .exn => HealthReply.mk 503 "unhealthy" "not_accessible"

/-- First value stored under a key in a parsed JSON object, modelled as
an association list with string values. -/
def lookup? (d : List (String × String)) (k : String) : Option String :=
  (d.find? (fun p => p.1 == k)).map (fun p => p.2)

/-- Result of the control endpoint: HTTP status, JSON payload (as an
association list), and the process state after the call. -/
structure UpdateResult where
  status : Nat
  payload : List (String × String)
  newState : ProxyState
deriving DecidableEq, Repr

/-- The `/tunnel_update` handler (lines 131-164).  `body` is the parsed
JSON object (`none` when no object could be parsed from the request);
`now` is the current wall-clock time, abstract.  Python's
`if not data or 'tunnel_url' not in data` rejects an absent or empty
object and an object without the key; otherwise the globals are
reassigned and a success payload is returned.  The `timestamp` field is
read with a default but never used in the response. -/
def tunnel_update (st : ProxyState) (body : Option (List (String × String)))
    (now : String) : UpdateResult :=
  let errorResult : UpdateResult :=
    UpdateResult.mk 400 [("error", "Missing tunnel_url in request")] st
  match body with
  | none => errorResult
  | some data =>
    if data.isEmpty then errorResult
    else
      match lookup? data "tunnel_url" with
      | none => errorResult
      | some new_tunnel_url =>
        let source := (lookup? data "source").getD "unknown"
        let _timestamp := (lookup? data "timestamp").getD now
        let old_url := st.current_tunnel_url
        let st2 := ProxyState.mk st.cloudflared_tunnel_url new_tunnel_url (some now)
        UpdateResult.mk 200
          [("status", "success"),
           ("message", "Tunnel URL updated successfully"),
           ("old_url", old_url),
           ("new_url", new_tunnel_url),
           ("updated_at", now),
           ("source", source)]
          st2

/-- Set of HTTP methods Flask admits for a route, from the route's
declared `methods` list: when no list is declared the route accepts
`GET` only, and Flask adds `HEAD` for `GET` and always `OPTIONS`. -/
def routeAllowedMethods (declared : Option (List String)) : List String :=
  match declared with
  | none => ["GET", "HEAD", "OPTIONS"]
  | some ms => (if ms.contains "GET" then ["HEAD"] else []) ++ ms ++ ["OPTIONS"]

/-- The view functions of the application, with the catch-all's captured
`path` argument. -/
inductive Endpoint where
  | proxyEp (path : String)
  | health
  | tunnelUpdate
  | statusEp
deriving DecidableEq, Repr

/-- Routing decision for one inbound request line. -/
inductive DispatchResult where
  | dispatched (e : Endpoint)
  | methodNotAllowed
  | notFound
deriving DecidableEq, Repr

/-- Whether a request path matches the catch-all rule `/<path:path>`:
Werkzeug's `path` converter requires a non-empty capture that does not
start with `/`. -/
def isCatchAllPath (p : String) : Bool :=
  p.data.head? = some '/' && decide (2 ≤ p.length) && !((p.drop 1).data.head? = some '/')

/-- URL dispatch of the application: the three literal rules and `/`
(the catch-all with `defaults={'path': ''}`) are tried first, then the
catch-all; a matched rule whose method set excludes the request method
answers 405 before any view function runs.  The `proxy` routes declare
no methods, `/tunnel_update` declares `methods=['POST']`. -/
def dispatch (method p : String) : DispatchResult :=
  if p = "/health" then
    if (routeAllowedMethods none).contains method then .dispatched .health
    else .methodNotAllowed
  else if p = "/tunnel_update" then
    if (routeAllowedMethods (some ["POST"])).contains method then .dispatched .tunnelUpdate
    else .methodNotAllowed
  else if p = "/status" then
    if (routeAllowedMethods none).contains method then .dispatched .statusEp
    else .methodNotAllowed
  else if p = "/" then
    if (routeAllowedMethods none).contains method then .dispatched (.proxyEp "")
    else .methodNotAllowed
  else if isCatchAllPath p then
    if (routeAllowedMethods none).contains method then .dispatched (.proxyEp (p.drop 1))
    else .methodNotAllowed
  else .notFound

/-- Whether a path is served by one of the two catch-all proxy rules. -/
def matchesProxyRoute (p : String) : Bool :=
  (p != "/health" && p != "/tunnel_update" && p != "/status") &&
    (p == "/" || isCatchAllPath p)

/-- Reply of the redirect variant's handler: HTTP status and the
`Location` header value. -/
structure RedirectReply where
  code : Nat
  location : String
deriving DecidableEq, Repr

/-- Modelled from the spec: the redirect variant's handler is not among
the source files (only the proxy variant `render_proxy.py` is).  Per the
spec's redirect-handler contract, the root path receives a 302 redirect
to the current Upstream Target, and any other path receives a 302
redirect to the same target URL (with query string) the proxy variant
builds. -/
def redirect_handler (st : ProxyState) (path query_string : String) : RedirectReply :=
  if path = "" then RedirectReply.mk 302 st.current_tunnel_url
  else RedirectReply.mk 302 (buildTargetUrl st.current_tunnel_url path query_string)

/-! ## Helper lemmas -/

/-- `tunnel_update` never changes the immutable environment default. -/
theorem tunnelUpdate_cloudflared (st : ProxyState) (body : Option (List (String × String)))
    (now : String) :
    (tunnel_update st body now).newState.cloudflared_tunnel_url = st.cloudflared_tunnel_url := by
  match body with
  | none => rfl
  | some [] => rfl
  | some (a :: l) =>
    simp only [tunnel_update, List.isEmpty_cons, Bool.false_eq_true, if_false]
    cases h : lookup? (a :: l) "tunnel_url" <;> simp [h]

/-- The head of `List.dropWhile p l`, when present, fails `p`. -/
theorem head_dropWhile_false {α : Type} (p : α → Bool) (l : List α) :
    ∀ a, (List.dropWhile p l).head? = some a → p a = false := by
  induction l with
  | nil =>
    intro a h
    simp [List.dropWhile] at h
  | cons x xs ih =>
    intro a h
    by_cases hx : p x
    · rw [List.dropWhile_cons_of_pos hx] at h
      exact ih a h
    · rw [List.dropWhile_cons_of_neg hx] at h
      simp at h
      rw [h] at hx
      simpa using hx

/-- `rstrip('/')` absorbs a trailing slash. -/
theorem rstripSlash_append_slash (u : String) : rstripSlash (u ++ "/") = rstripSlash u := by
  simp [rstripSlash, String.data_append, List.dropWhile_cons]

/-- `rstrip('/')` leaves no trailing slash. -/
theorem rstripSlash_getLast (u : String) : (rstripSlash u).data.getLast? ≠ some '/' := by
  intro h
  simp only [rstripSlash, List.getLast?_reverse] at h
  have := head_dropWhile_false (fun c => decide (c = '/')) u.data.reverse '/' h
  simp at this

/-! ## Claims -/

/-- Claim C1 (corrected): the health endpoint does not probe the current
Upstream Target; it probes the immutable environment default.  Setting a
new tunnel URL through `tunnel_update` leaves the stored default at
`http://localhost:5000` while `current_tunnel_url` becomes the updated
value, so the probe URL differs from the current Upstream Target. -/
theorem C1_counterexample :
    healthProbeUrl (tunnel_update (initState none)
        (some [("tunnel_url", "http://updated.example")]) "T").newState
      = "http://localhost:5000" ∧
    (tunnel_update (initState none)
        (some [("tunnel_url", "http://updated.example")]) "T").newState.current_tunnel_url
      = "http://updated.example" ∧
    ("http://localhost:5000" : String) ≠ "http://updated.example" := by
  refine ⟨rfl, rfl, ?_⟩
  decide

/-- Claim C1 (amended): the health probe is always directed at the
immutable environment default `CLOUDFLARED_TUNNEL_URL`, with a 5-second
timeout; a control update never changes the probe URL, and the health
endpoint's behaviour is entirely independent of the mutable
`current_tunnel_url` and `tunnel_update_time`. -/
theorem C1_amended :
    (∀ st, healthProbeUrl st = st.cloudflared_tunnel_url) ∧
    (∀ st body now probe,
      health_check (tunnel_update st body now).newState probe = health_check st probe) ∧
    (∀ c u1 t1 u2 t2 probe,
      health_check (ProxyState.mk c u1 t1) probe = health_check (ProxyState.mk c u2 t2) probe) ∧
    healthTimeoutSeconds = 5 := by
  refine ⟨fun st => rfl, ?_, fun c u1 t1 u2 t2 probe => rfl, rfl⟩
  intro st body now probe
  simp [health_check, tunnelUpdate_cloudflared]

/-- Claim C4: a `/tunnel_update` request whose parsed body is absent or
lacks the `tunnel_url` key yields exactly the 400 error response, and
the state — both Upstream Target and Update Timestamp — is returned
unchanged. -/
theorem C4_thm (st : ProxyState) (body : Option (List (String × String))) (now : String)
    (h : match body with
         | none => True
         | some d => lookup? d "tunnel_url" = none) :
    tunnel_update st body now
      = UpdateResult.mk 400 [("error", "Missing tunnel_url in request")] st := by
  match body with
  | none => rfl
  | some [] => rfl
  | some (a :: l) =>
    simp only at h
    simp [tunnel_update, h]

/-- Witness for C4 at a concrete input: an absent body yields the 400
error and an unchanged state. -/
theorem C4_witness :
    tunnel_update (initState none) none "T"
      = UpdateResult.mk 400 [("error", "Missing tunnel_url in request")] (initState none) :=
  C4_thm (initState none) none "T" trivial

/-- Claim C9: the health endpoint returns 200 healthy/connected exactly
when the probe answers with status 200, 503 unhealthy with
`responding_with_error` for any other status, and 503 unhealthy with
`not_accessible` when the probe raises; these three replies are the only
possible outcomes. -/
theorem C9_thm (st : ProxyState) (probe : String → ProbeOutcome) :
    (probe st.cloudflared_tunnel_url = ProbeOutcome.ok 200 →
      health_check st probe = HealthReply.mk 200 "healthy" "connected") ∧
    (∀ s, probe st.cloudflared_tunnel_url = ProbeOutcome.ok s → s ≠ 200 →
      health_check st probe = HealthReply.mk 503 "unhealthy" "responding_with_error") ∧
    (probe st.cloudflared_tunnel_url = ProbeOutcome.exn →
      health_check st probe = HealthReply.mk 503 "unhealthy" "not_accessible") ∧
    (health_check st probe = HealthReply.mk 200 "healthy" "connected" ∨
     health_check st probe = HealthReply.mk 503 "unhealthy" "responding_with_error" ∨
     health_check st probe = HealthReply.mk 503 "unhealthy" "not_accessible") := by
  refine ⟨?_, ?_, ?_, ?_⟩
  · intro h; simp [health_check, h]
  · intro s h hs; simp [health_check, h, hs]
  · intro h; simp [health_check, h]
  · unfold health_check
    cases probe st.cloudflared_tunnel_url with
    | ok s =>
      by_cases h : s = 200 <;> simp [h]
    | exn => simp

/-- Witness for C9 at a concrete input: a probe that answers 200 makes
the endpoint report healthy/connected. -/
theorem C9_witness :
    ((fun _ => ProbeOutcome.ok 200) (initState none).cloudflared_tunnel_url
        = ProbeOutcome.ok 200) ∧
    health_check (initState none) (fun _ => ProbeOutcome.ok 200)
      = HealthReply.mk 200 "healthy" "connected" :=
  ⟨rfl, (C9_thm (initState none) (fun _ => ProbeOutcome.ok 200)).1 rfl⟩

/-- Claim C3 (corrected): leading slashes on the inbound path are not
stripped by the target-URL construction: with upstream `http://u` and
path `/foo`, the constructed URL is `http://u//foo`, not `http://u/foo`
with a single separating slash. -/
theorem C3_counterexample :
    buildTargetUrl "http://u" "/foo" "" = "http://u//foo" ∧
    buildTargetUrl "http://u" "/foo" "" ≠ "http://u/foo" := by
  refine ⟨rfl, ?_⟩
  decide

/-- Claim C3 (amended): the constructed target URL is the upstream with
its trailing slashes stripped, then exactly one slash, then the path as
matched, with the query string appended verbatim exactly when non-empty;
trailing slashes on the upstream never matter, the stripped base never
ends in a slash, and a path captured by the routing surface never begins
with a slash (so reachable requests always get exactly one separating
slash). -/
theorem C3_amended :
    (∀ u p q, buildTargetUrl (u ++ "/") p q = buildTargetUrl u p q) ∧
    (∀ st p q, proxyTargetUrl st p q =
      (if q ≠ "" then rstripSlash st.current_tunnel_url ++ "/" ++ p ++ "?" ++ q
       else rstripSlash st.current_tunnel_url ++ "/" ++ p)) ∧
    (∀ u, (rstripSlash u).data.getLast? ≠ some '/') ∧
    (∀ m p s, dispatch m p = DispatchResult.dispatched (Endpoint.proxyEp s) →
      s.data.head? ≠ some '/') := by
  refine ⟨?_, ?_, rstripSlash_getLast, ?_⟩
  · intro u p q
    simp only [buildTargetUrl, rstripSlash_append_slash]
  · intro st p q
    by_cases h : q = "" <;> simp [proxyTargetUrl, buildTargetUrl, h]
  · intro m p s h
    unfold dispatch at h
    by_cases h1 : p = "/health"
    · rw [if_pos h1] at h
      split at h <;> exact absurd h (by simp)
    rw [if_neg h1] at h
    by_cases h2 : p = "/tunnel_update"
    · rw [if_pos h2] at h
      split at h <;> exact absurd h (by simp)
    rw [if_neg h2] at h
    by_cases h3 : p = "/status"
    · rw [if_pos h3] at h
      split at h <;> exact absurd h (by simp)
    rw [if_neg h3] at h
    by_cases h4 : p = "/"
    · rw [if_pos h4] at h
      split at h
      · have hs : s = "" := by
          injection h with h'
          injection h' with h''
          exact h''.symm
        subst hs
        simp
      · exact absurd h (by simp)
    rw [if_neg h4] at h
    by_cases h5 : isCatchAllPath p = true
    · rw [if_pos h5] at h
      split at h
      · have hs : s = p.drop 1 := by
          injection h with h'
          injection h' with h''
          exact h''.symm
        subst hs
        simp only [isCatchAllPath, Bool.and_eq_true, Bool.not_eq_true', decide_eq_false_iff_not,
          decide_eq_true_eq] at h5
        exact h5.2
      · exact absurd h (by simp)
    · rw [if_neg h5] at h
      exact absurd h (by simp)

/-- Witness for C3 at a concrete input: `GET /foo` is routed to the
catch-all with captured path `foo`, which does not begin with a slash. -/
theorem C3_witness :
    dispatch "GET" "/foo" = DispatchResult.dispatched (Endpoint.proxyEp "foo") ∧
    ("foo" : String).data.head? ≠ some '/' :=
  ⟨by decide, C3_amended.2.2.2 "GET" "/foo" "foo" (by decide)⟩

/-- Claim C5 (corrected): a `/tunnel_update` with `tunnel_url` present
succeeds with 200, stores the new URL and the update time, and echoes
old URL, new URL, update time and `source` (defaulting to `unknown`);
but the `timestamp` field is only read, never echoed: the success
payload carries no `timestamp` key. -/
theorem C5_counterexample :
    (tunnel_update (initState none)
        (some [("tunnel_url", "http://x"), ("source", "s1"), ("timestamp", "T1")])
        "NOW").status = 200 ∧
    lookup? (tunnel_update (initState none)
        (some [("tunnel_url", "http://x"), ("source", "s1"), ("timestamp", "T1")])
        "NOW").payload "timestamp" = none :=
  ⟨rfl, rfl⟩

/-- Claim C5 (amended): on a body containing `tunnel_url`, the handler
replaces the Upstream Target, records the update time, preserves the
environment default, and answers 200 with the old URL, the new URL, the
update time and the `source` label (defaulting to `unknown` when
absent); the `timestamp` field is not part of the response. -/
theorem C5_amended (st : ProxyState) (d : List (String × String)) (now v : String)
    (hv : lookup? d "tunnel_url" = some v) :
    (tunnel_update st (some d) now).status = 200 ∧
    (tunnel_update st (some d) now).newState.current_tunnel_url = v ∧
    (tunnel_update st (some d) now).newState.tunnel_update_time = some now ∧
    (tunnel_update st (some d) now).newState.cloudflared_tunnel_url
      = st.cloudflared_tunnel_url ∧
    lookup? (tunnel_update st (some d) now).payload "old_url" = some st.current_tunnel_url ∧
    lookup? (tunnel_update st (some d) now).payload "new_url" = some v ∧
    lookup? (tunnel_update st (some d) now).payload "updated_at" = some now ∧
    lookup? (tunnel_update st (some d) now).payload "source"
      = some ((lookup? d "source").getD "unknown") ∧
    lookup? (tunnel_update st (some d) now).payload "timestamp" = none := by
  match d with
  | [] => simp [lookup?] at hv
  | a :: l =>
    simp only [tunnel_update, List.isEmpty_cons, Bool.false_eq_true, if_false, hv]
    simp [lookup?]

/-- Witness for C5 at a concrete input. -/
theorem C5_witness :
    lookup? [("tunnel_url", "http://x"), ("source", "s1")] "tunnel_url" = some "http://x" ∧
    (tunnel_update (initState none) (some [("tunnel_url", "http://x"), ("source", "s1")])
        "NOW").newState.current_tunnel_url = "http://x" :=
  ⟨rfl, (C5_amended (initState none) [("tunnel_url", "http://x"), ("source", "s1")]
    "NOW" "http://x" rfl).2.1⟩

/-- Claim C6 (corrected): the control endpoint accepts any string for
`tunnel_url`, the empty string included: this update completes with
status 200 and leaves an empty Upstream Target, violating the claimed
invariant. -/
theorem C6_counterexample :
    (tunnel_update (initState none) (some [("tunnel_url", "")]) "T").status = 200 ∧
    ((tunnel_update (initState none) (some [("tunnel_url", "")]) "T").newState).current_tunnel_url = "" :=
  ⟨rfl, rfl⟩

/-- Claim C6 (amended): the Upstream Target is non-empty at start-up
whenever the environment variable is unset or non-empty, and an update
preserves non-emptiness exactly when the submitted `tunnel_url` value is
itself non-empty; since no validation is performed, an empty submitted
value breaks the invariant. -/
theorem C6_amended :
    (initState none).current_tunnel_url ≠ "" ∧
    (∀ env, env ≠ some "" → (initState env).current_tunnel_url ≠ "") ∧
    (∀ st body now,
      st.current_tunnel_url ≠ "" →
      (∀ d v, body = some d → lookup? d "tunnel_url" = some v → v ≠ "") →
      (tunnel_update st body now).newState.current_tunnel_url ≠ "") := by
  refine ⟨by decide, ?_, ?_⟩
  · intro env henv
    cases env with
    | none => decide
    | some s =>
      simp only [initState, Option.getD]
      intro hs
      exact henv (by rw [hs])
  · intro st body now hst hv
    match body with
    | none => exact hst
    | some [] => exact hst
    | some (a :: l) =>
      cases h : lookup? (a :: l) "tunnel_url" with
      | none => simpa [tunnel_update, h] using hst
      | some v =>
        have hcur : (tunnel_update st (some (a :: l)) now).newState.current_tunnel_url = v := by
          simp [tunnel_update, h]
        rw [hcur]
        exact hv (a :: l) v rfl h

/-- Witness for C6 at a concrete input: an update submitting a non-empty
URL preserves non-emptiness. -/
theorem C6_witness :
    ((tunnel_update (initState none) (some [("tunnel_url", "http://y")]) "T").newState).current_tunnel_url ≠ "" :=
  C6_amended.2.2 (initState none) (some [("tunnel_url", "http://y")]) "T" (by decide)
    (by
      intro d v hd hv
      cases hd
      simp [lookup?] at hv
      subst hv
      decide)

/-- Claim C7 (corrected): the handler's own error statuses are not the
only outcomes carrying 503/504/500: a successful upstream response is
relayed with its status code unchanged, so an upstream that itself
answers 503 makes the success path of the handler produce a 503 as
well.  Here the handler receives an upstream response (no exception) and
still returns status 503, through the relay. -/
theorem C7_counterexample :
    (proxy (initState none) (UpstreamOutcome.response 503 [] [])).statusOf = 503 ∧
    (proxy (initState none) (UpstreamOutcome.response 503 [] [])).relayBody? = some [] :=
  ⟨rfl, rfl⟩

/-- Claim C7 (amended): a connection failure yields exactly the 503
plain-text response naming the current upstream URL, a timeout yields
the 504 plain-text response, any other exception yields the 500 response
carrying the exception's message; every upstream response is relayed
(so a relayed status may also be 503/504/500); among the handler's own
error responses, 503 arises only from connection failure, 504 only from
timeout and 500 only from another exception; no error escapes and the
outcome is consumed without retry. -/
theorem C7_amended (st : ProxyState) :
    proxy st UpstreamOutcome.connectionError
      = ProxyResult.errorResponse 503 (connectionErrorMessage st) ∧
    proxy st UpstreamOutcome.timeout = ProxyResult.errorResponse 504 (timeoutMessage st) ∧
    (∀ e, proxy st (UpstreamOutcome.otherError e)
      = ProxyResult.errorResponse 500 ("Proxy error: " ++ e)) ∧
    connectionErrorMessage st
      = "Cloudflared tunnel is not accessible at " ++ st.current_tunnel_url ++
          ". Please ensure your local app is running and cloudflared tunnel is active." ∧
    timeoutMessage st
      = "Request timeout. The cloudflared tunnel at " ++ st.current_tunnel_url ++
          " is taking too long to respond." ∧
    (∀ s b hs, ∃ hs2, proxy st (UpstreamOutcome.response s b hs) = ProxyResult.relay s b hs2) ∧
    (∀ o c m, proxy st o = ProxyResult.errorResponse c m ↔
      ((c = 503 ∧ m = connectionErrorMessage st ∧ o = UpstreamOutcome.connectionError) ∨
       (c = 504 ∧ m = timeoutMessage st ∧ o = UpstreamOutcome.timeout) ∨
       (c = 500 ∧ ∃ e, m = "Proxy error: " ++ e ∧ o = UpstreamOutcome.otherError e))) := by
  refine ⟨rfl, rfl, fun e => rfl, rfl, rfl, fun s b hs => ⟨_, rfl⟩, ?_⟩
  intro o c m
  cases o <;> simp [proxy, eq_comm]

/-- Witness for C7 at a concrete input: a timeout produces the 504
response. -/
theorem C7_witness :
    proxy (initState none) UpstreamOutcome.timeout
      = ProxyResult.errorResponse 504 (timeoutMessage (initState none)) :=
  (C7_amended (initState none)).2.1

/-- Claim C8: a relayed response keeps the upstream's status code and
body bytes, and its headers are exactly the upstream's headers minus
every entry named `Transfer-Encoding` or `Content-Encoding` (compared
case-insensitively); in particular no header with either name survives. -/
theorem C8_thm (st : ProxyState) (s : Nat) (b : List Nat) (hs : List (String × String)) :
    (proxy st (UpstreamOutcome.response s b hs)).statusOf = s ∧
    (proxy st (UpstreamOutcome.response s b hs)).relayBody? = some b ∧
    (∀ hd, hd ∈ (proxy st (UpstreamOutcome.response s b hs)).headersOf ↔
      (hd ∈ hs ∧ headerNameMatches hd.1 "Transfer-Encoding" = false ∧
        headerNameMatches hd.1 "Content-Encoding" = false)) := by
  refine ⟨rfl, rfl, ?_⟩
  intro hd
  simp only [proxy, ProxyResult.headersOf, removeHeader, List.mem_filter,
    Bool.not_eq_true']
  tauto

/-- Witness for C8 at a concrete input: an unrelated header survives the
relay. -/
theorem C8_witness :
    ("X-Custom", "1") ∈ (proxy (initState none)
        (UpstreamOutcome.response 200 [] [("X-Custom", "1")])).headersOf :=
  ((C8_thm (initState none) 200 [] [("X-Custom", "1")]).2.2 ("X-Custom", "1")).mpr
    ⟨by decide, by decide, by decide⟩

/-- Claim C2: for a POST, PUT or DELETE request, routing never reaches
the catch-all forwarding handler: no such request is dispatched to the
`proxy` view, and on any path served by the two catch-all rules the
router answers 405 Method Not Allowed. -/
theorem C2_thm (m p : String) (hm : m = "POST" ∨ m = "PUT" ∨ m = "DELETE") :
    (∀ s, dispatch m p ≠ DispatchResult.dispatched (Endpoint.proxyEp s)) ∧
    (matchesProxyRoute p = true → dispatch m p = DispatchResult.methodNotAllowed) := by
  have hc : (routeAllowedMethods none).contains m = false := by
    rcases hm with h | h | h <;> subst h <;> rfl
  constructor
  · intro s h
    unfold dispatch at h
    simp only [hc] at h
    simp at h
    repeat' split at h
    all_goals simp_all
  · intro hpm
    unfold matchesProxyRoute at hpm
    simp only [Bool.and_eq_true, bne_iff_ne, ne_eq, Bool.or_eq_true, beq_iff_eq] at hpm
    obtain ⟨⟨⟨hne1, hne2⟩, hne3⟩, hor⟩ := hpm
    unfold dispatch
    rw [if_neg hne1, if_neg hne2, if_neg hne3]
    cases hor with
    | inl h4 =>
      rw [if_pos h4]
      simp [hc]
      simpa using hc
    | inr h5 =>
      by_cases hp : p = "/"
      · subst hp
        exact absurd h5 (by decide)
      · rw [if_neg hp, if_pos h5]
        simp [hc]
        simpa using hc

/-- Witness for C2 at a concrete input: `POST /foo` matches a proxy
route and is answered 405. -/
theorem C2_witness :
    (("POST" : String) = "POST" ∨ ("POST" : String) = "PUT" ∨ ("POST" : String) = "DELETE") ∧
    matchesProxyRoute "/foo" = true ∧
    dispatch "POST" "/foo" = DispatchResult.methodNotAllowed :=
  ⟨Or.inl rfl, by decide, (C2_thm "POST" "/foo" (Or.inl rfl)).2 (by decide)⟩

/-- Claim C10: in the redirect variant, the root path receives a 302
redirect to the current Upstream Target, and any other path receives a
302 redirect to the target URL built as in the proxy handler; in
particular `GET /foo` with upstream `http://u` receives a 302 whose
location is `http://u/foo`. -/
theorem C10_thm :
    (∀ st q, redirect_handler st "" q = RedirectReply.mk 302 st.current_tunnel_url) ∧
    (∀ st p q, p ≠ "" →
      redirect_handler st p q
        = RedirectReply.mk 302 (buildTargetUrl st.current_tunnel_url p q)) ∧
    redirect_handler (initState (some "http://u")) "foo" ""
      = RedirectReply.mk 302 "http://u/foo" := by
  refine ⟨fun st q => rfl, ?_, by decide⟩
  intro st p q hp
  simp [redirect_handler, hp]

/-- Witness for C10 at a concrete input. -/
theorem C10_witness :
    (("foo" : String) ≠ "") ∧
    redirect_handler (initState (some "http://u")) "foo" "x=1"
      = RedirectReply.mk 302 (buildTargetUrl "http://u" "foo" "x=1") :=
  ⟨by decide, C10_thm.2.1 (initState (some "http://u")) "foo" "x=1" (by decide)⟩

end RenderProxy
